import Mathlib

/-!
Verification of the wetterdienst acquisition-and-normalization engine
against its specification, for the DWD road-weather and NWS observation
providers.

The definitions below are shallow embeddings of the Python source in
`wetterdienst/provider/dwd/road_weather/api.py` and
`wetterdienst/provider/nws/observation/api.py`.  Engine components that the
source imports from modules absent from the repository snapshot (the geo
utilities, the cache, the parallel downloader, the raw parser and the tidy
pipeline) are modelled from the specification; their doc comments say so
explicitly and name the missing module.
-/

/-- A station record of the road-weather meta index: identifier (the column
`Kennung`), station name (`GMA-Name`), station group (`GDS-Verzeichnis`,
the file bucket the station publishes into) and coordinates. -/
structure MetaStation where
  stationId : String
  name : String
  stationGroup : String
  latitude : ℚ
  longitude : ℚ
deriving DecidableEq, Repr

/-- Errors of the engine.  `invalidRank` is the failure of the
nearest-neighbour resolver for a rank outside `1 ≤ rank ≤ |index|` (spec
section 4.4).  `notImplementedOnlyLatest` embeds the exception
`NotImplementedError("Actually only latest as period type is supported")`
raised by `_collect_data_by_station_group`, the realization of the
specification error `UnsupportedCombination`.  `valueErrorNoObjects` embeds
the `ValueError` pandas raises when `pd.concat` receives an empty list of
frames. -/
inductive RwError
  | invalidRank
  | notImplementedOnlyLatest
  | valueErrorNoObjects
deriving DecidableEq, Repr

/-- Insert an element into a list so that, when the list is sorted by `le`,
the result stays sorted. -/
def insertSorted {α : Type} (le : α → α → Bool) (x : α) : List α → List α
  | [] => [x]
  | y :: ys => if le x y then x :: y :: ys else y :: insertSorted le x ys

/-- Sort a list by the boolean comparison `le` (insertion sort). -/
def sortStations {α : Type} (le : α → α → Bool) : List α → List α
  | [] => []
  | x :: xs => insertSorted le x (sortStations le xs)

/-- Comparison used by the nearest-neighbour resolver: by distance from the
target, equal distances broken by station identifier ascending (the
determinism rule of spec section 4.4). -/
def stationLe (dist : MetaStation → ℚ) (a b : MetaStation) : Bool :=
  if dist a < dist b then true
  else if dist a = dist b then decide (a.stationId ≤ b.stationId)
  else false

/-- The ordered `(station, distance)` sequence of the resolver in the valid
case: the station index sorted by distance-then-identifier, truncated to
`rank` entries, each paired with its distance. -/
def nearestOut (d : ℚ → ℚ → MetaStation → ℚ) (stationIndex : List MetaStation)
    (targetLat targetLon : ℚ) (rank : Nat) : List (MetaStation × ℚ) :=
  ((sortStations (stationLe (d targetLat targetLon)) stationIndex).take rank).map
    (fun s => (s, d targetLat targetLon s))

/-- Modelled from the spec: `GeoNearestNeighborResolver.nearest` (spec
section 4.4), realizing `derive_nearest_neighbours` of
`wetterdienst.util.geo`, which `_collect_data_by_rank` imports but which is
absent from the repository snapshot.  `nearest(station_index, target_lat,
target_lon, rank)` returns the `rank` nearest stations with their
distances, ordered by non-decreasing distance with ties broken by station
identifier ascending, and fails with `InvalidRank` unless
`1 ≤ rank ≤ |station_index|`.  The great-circle (haversine) metric is a
transcendental real-valued function; it enters this model as the parameter
`d`, mapping target latitude, target longitude and a station to a distance,
so the count, ordering and tie-break contract is established for the metric
the spec prescribes (and for any pluggable replacement, as the spec demands
acceleration must not change the result ordering). -/
def nearest (d : ℚ → ℚ → MetaStation → ℚ) (stationIndex : List MetaStation)
    (targetLat targetLon : ℚ) (rank : Nat) :
    Except RwError (List (MetaStation × ℚ)) :=
  if rank < 1 ∨ stationIndex.length < rank then .error .invalidRank
  else .ok (nearestOut d stationIndex targetLat targetLon rank)

lemma insertSorted_cons_pos {α : Type} (le : α → α → Bool) (x y : α)
    (ys : List α) (h : le x y = true) :
    insertSorted le x (y :: ys) = x :: y :: ys := by
  simp [insertSorted, h]

lemma insertSorted_cons_neg {α : Type} (le : α → α → Bool) (x y : α)
    (ys : List α) (h : le x y = false) :
    insertSorted le x (y :: ys) = y :: insertSorted le x ys := by
  simp [insertSorted, h]

lemma length_insertSorted {α : Type} (le : α → α → Bool) (x : α) :
    ∀ l : List α, (insertSorted le x l).length = l.length + 1 := by
  intro l
  induction l with
  | nil => rfl
  | cons y ys ih =>
    cases h : le x y
    · rw [insertSorted_cons_neg le x y ys h, List.length_cons, ih,
        List.length_cons]
    · rw [insertSorted_cons_pos le x y ys h]
      rfl

lemma mem_insertSorted {α : Type} (le : α → α → Bool) (x y : α) :
    ∀ l : List α, y ∈ insertSorted le x l ↔ y = x ∨ y ∈ l := by
  intro l
  induction l with
  | nil =>
    simp [insertSorted]
  | cons z zs ih =>
    cases h : le x z
    · rw [insertSorted_cons_neg le x z zs h]
      simp only [List.mem_cons, ih]
      tauto
    · rw [insertSorted_cons_pos le x z zs h]
      simp only [List.mem_cons]

lemma length_sortStations {α : Type} (le : α → α → Bool) :
    ∀ l : List α, (sortStations le l).length = l.length := by
  intro l
  induction l with
  | nil => rfl
  | cons x xs ih => simp [sortStations, length_insertSorted, ih]

lemma mem_sortStations {α : Type} (le : α → α → Bool) (y : α) :
    ∀ l : List α, y ∈ sortStations le l ↔ y ∈ l := by
  intro l
  induction l with
  | nil => simp [sortStations]
  | cons x xs ih =>
    simp only [sortStations, mem_insertSorted, ih, List.mem_cons]

lemma pairwise_insertSorted {α : Type} (le : α → α → Bool)
    (htot : ∀ a b, le a b = true ∨ le b a = true)
    (htr : ∀ a b c, le a b = true → le b c = true → le a c = true) (x : α) :
    ∀ l : List α, l.Pairwise (fun a b => le a b = true) →
      (insertSorted le x l).Pairwise (fun a b => le a b = true) := by
  intro l
  induction l with
  | nil => intro _; simp [insertSorted]
  | cons y ys ih =>
    intro hp
    rw [List.pairwise_cons] at hp
    obtain ⟨hy, hys⟩ := hp
    cases h : le x y
    · rw [insertSorted_cons_neg le x y ys h]
      refine List.Pairwise.cons ?_ (ih hys)
      intro z hz
      rcases (mem_insertSorted le x z ys).mp hz with rfl | hz2
      · rcases htot z y with hxy | hyx
        · rw [h] at hxy
          exact absurd hxy (by simp)
        · exact hyx
      · exact hy z hz2
    · rw [insertSorted_cons_pos le x y ys h]
      refine List.Pairwise.cons ?_ (List.Pairwise.cons hy hys)
      intro z hz
      rcases List.mem_cons.mp hz with rfl | hz2
      · exact h
      · exact htr x y z h (hy z hz2)

lemma pairwise_sortStations {α : Type} (le : α → α → Bool)
    (htot : ∀ a b, le a b = true ∨ le b a = true)
    (htr : ∀ a b c, le a b = true → le b c = true → le a c = true) :
    ∀ l : List α, (sortStations le l).Pairwise (fun a b => le a b = true) := by
  intro l
  induction l with
  | nil => simp [sortStations]
  | cons x xs ih => exact pairwise_insertSorted le htot htr x _ ih

lemma stationLe_iff (dist : MetaStation → ℚ) (a b : MetaStation) :
    stationLe dist a b = true ↔
      dist a < dist b ∨ (dist a = dist b ∧ a.stationId ≤ b.stationId) := by
  unfold stationLe
  by_cases h1 : dist a < dist b
  · simp [h1]
  · by_cases h2 : dist a = dist b
    · simp [h1, h2]
    · simp [h1, h2]

lemma stationLe_total (dist : MetaStation → ℚ) (a b : MetaStation) :
    stationLe dist a b = true ∨ stationLe dist b a = true := by
  rcases lt_trichotomy (dist a) (dist b) with h | h | h
  · exact Or.inl ((stationLe_iff dist a b).mpr (Or.inl h))
  · rcases le_total a.stationId b.stationId with hab | hba
    · exact Or.inl ((stationLe_iff dist a b).mpr (Or.inr ⟨h, hab⟩))
    · exact Or.inr ((stationLe_iff dist b a).mpr (Or.inr ⟨h.symm, hba⟩))
  · exact Or.inr ((stationLe_iff dist b a).mpr (Or.inl h))

lemma stationLe_trans (dist : MetaStation → ℚ) (a b c : MetaStation) :
    stationLe dist a b = true → stationLe dist b c = true →
      stationLe dist a c = true := by
  intro hab hbc
  rcases (stationLe_iff dist a b).mp hab with h1 | ⟨h1, h1id⟩
  · rcases (stationLe_iff dist b c).mp hbc with h2 | ⟨h2, _⟩
    · exact (stationLe_iff dist a c).mpr (Or.inl (lt_trans h1 h2))
    · exact (stationLe_iff dist a c).mpr (Or.inl (h2 ▸ h1))
  · rcases (stationLe_iff dist b c).mp hbc with h2 | ⟨h2, h2id⟩
    · exact (stationLe_iff dist a c).mpr (Or.inl (h1 ▸ h2))
    · exact (stationLe_iff dist a c).mpr
        (Or.inr ⟨h1.trans h2, le_trans h1id h2id⟩)

/-- C1: for every station index and every rank with
`1 ≤ rank ≤ |station_index|`, the nearest-neighbour resolution returns
exactly `rank` stations drawn from the index, each paired with its distance
from the target, ordered by non-decreasing distance with equal distances
broken by station identifier ascending; for every rank outside that range
it fails with `InvalidRank`. -/
theorem nearest_spec (d : ℚ → ℚ → MetaStation → ℚ)
    (stationIndex : List MetaStation) (lat lon : ℚ) (rank : Nat)
    (h1 : 1 ≤ rank) (h2 : rank ≤ stationIndex.length) :
    nearest d stationIndex lat lon rank =
      .ok (nearestOut d stationIndex lat lon rank) ∧
    (nearestOut d stationIndex lat lon rank).length = rank ∧
    (∀ p ∈ nearestOut d stationIndex lat lon rank,
      p.1 ∈ stationIndex ∧ p.2 = d lat lon p.1) ∧
    (nearestOut d stationIndex lat lon rank).Pairwise
      (fun p q => p.2 < q.2 ∨ (p.2 = q.2 ∧ p.1.stationId ≤ q.1.stationId)) ∧
    (∀ rank2, rank2 < 1 ∨ stationIndex.length < rank2 →
      nearest d stationIndex lat lon rank2 = .error .invalidRank) := by
  have hcond : ¬(rank < 1 ∨ stationIndex.length < rank) := by omega
  refine ⟨by unfold nearest; rw [if_neg hcond], ?_, ?_, ?_, ?_⟩
  · unfold nearestOut
    rw [List.length_map, List.length_take, length_sortStations]
    omega
  · intro p hp
    unfold nearestOut at hp
    rcases List.mem_map.mp hp with ⟨s, hs, rfl⟩
    refine ⟨?_, rfl⟩
    exact (mem_sortStations _ s stationIndex).mp (List.mem_of_mem_take hs)
  · unfold nearestOut
    rw [List.pairwise_map]
    have hsorted := pairwise_sortStations (stationLe (d lat lon))
      (stationLe_total (d lat lon)) (stationLe_trans (d lat lon)) stationIndex
    have htake := hsorted.sublist (List.take_sublist rank _)
    exact htake.imp (fun h => (stationLe_iff (d lat lon) _ _).mp h)
  · intro rank2 hr2
    unfold nearest
    rw [if_pos hr2]

/-- Example distance metric standing in for the haversine formula in
concrete evaluations: squared planar offset from the target, a rational
function so that witnesses compute. -/
def exDist (targetLat targetLon : ℚ) (s : MetaStation) : ℚ :=
  (s.latitude - targetLat) * (s.latitude - targetLat) +
    (s.longitude - targetLon) * (s.longitude - targetLon)

/-- Station A of the spec example of section 8 at (52.0, 13.0). -/
def exStationA : MetaStation := ⟨"A", "Adlershof", "BB", 52, 13⟩

/-- Station B of the spec example of section 8 at (48.0, 11.0). -/
def exStationB : MetaStation := ⟨"B", "Brandenburg", "BB", 48, 11⟩

theorem nearest_spec_witness :
    nearest exDist [exStationA, exStationB] (521/10) (131/10) 1 =
      .ok (nearestOut exDist [exStationA, exStationB] (521/10) (131/10) 1) ∧
    nearestOut exDist [exStationA, exStationB] (521/10) (131/10) 1 =
      [(exStationA, exDist (521/10) (131/10) exStationA)] :=
  ⟨(nearest_spec exDist [exStationA, exStationB] (521/10) (131/10) 1
      (by norm_num) (by norm_num)).1,
   by norm_num [nearestOut, sortStations, insertSorted, stationLe, exDist,
     exStationA, exStationB]⟩

lemma countP_not_add {α : Type} (p q : α → Bool) (hpq : ∀ a, q a = !(p a)) :
    ∀ l : List α, l.countP p + l.countP q = l.length := by
  intro l
  induction l with
  | nil => simp
  | cons a l ih =>
    rw [List.countP_cons, List.countP_cons, List.length_cons, hpq a]
    cases h : p a <;> simp [h] <;> omega

/-- Modelled from the spec: `ParallelDownloader.fetch_many(refs,
concurrency_limit)` (spec section 4.6), realizing
`download_road_weather_observations_parallel` of
`wetterdienst.provider.dwd.road_weather.download`, which
`_collect_data_by_station_group` imports but which is absent from the
repository snapshot.  Every file reference is fetched independently and
`fetch` captures the per-item outcome (payload or recorded failure), so one
failed item never aborts the batch; the result pairs each reference with
its outcome in the order of `refs`, regardless of completion order.  The
bounded `concurrencyLimit` governs scheduling only and does not influence
the returned sequence. -/
def fetchMany (fetch : String → Except String String) (concurrencyLimit : Nat)
    (refs : List String) : List (String × Except String String) :=
  refs.map (fun r => (r, fetch r))

/-- C2: for every batch of N refs, `fetch_many` returns exactly N
`(ref, result)` pairs whose first components are the input refs in input
order; when exactly one ref fails the batch still completes, with N−1
successful payloads and 1 captured per-item failure. -/
theorem fetchMany_spec (fetch : String → Except String String)
    (concurrencyLimit : Nat) (refs : List String)
    (hfail : refs.countP (fun r => !(fetch r).isOk) = 1) :
    (fetchMany fetch concurrencyLimit refs).length = refs.length ∧
    (fetchMany fetch concurrencyLimit refs).map Prod.fst = refs ∧
    (fetchMany fetch concurrencyLimit refs).countP (fun p => !(p.2).isOk) = 1 ∧
    (fetchMany fetch concurrencyLimit refs).countP (fun p => (p.2).isOk) =
      refs.length - 1 := by
  refine ⟨by simp [fetchMany], ?_, ?_, ?_⟩
  · rw [fetchMany, List.map_map]
    exact List.map_id refs
  · rw [fetchMany, List.countP_map]
    exact hfail
  · rw [fetchMany, List.countP_map]
    have h2 := countP_not_add (fun r => ((fetch r)).isOk)
      (fun r => !(fetch r).isOk) (fun a => rfl) refs
    rw [hfail] at h2
    show refs.countP (fun r => ((fetch r)).isOk) = refs.length - 1
    omega

/-- Example fetch outcome map for concrete evaluations: the ref `"b"`
deliberately fails, every other ref succeeds. -/
def exFetch (r : String) : Except String String :=
  if r == "b" then .error "boom" else .ok r

theorem fetchMany_spec_witness :
    (fetchMany exFetch 8 ["a", "b", "c"]).length = (["a", "b", "c"] : List String).length ∧
    (fetchMany exFetch 8 ["a", "b", "c"]).map Prod.fst = ["a", "b", "c"] ∧
    (fetchMany exFetch 8 ["a", "b", "c"]).countP (fun p => !(p.2).isOk) = 1 ∧
    (fetchMany exFetch 8 ["a", "b", "c"]).countP (fun p => (p.2).isOk) =
      (["a", "b", "c"] : List String).length - 1 :=
  fetchMany_spec exFetch 8 ["a", "b", "c"]
    (by simp [exFetch, List.countP_cons, List.countP_nil, Except.isOk,
      Except.toBool])

/-- A cache entry: byte payload plus the time it was fetched, age measured
against the expiry-class threshold (spec section 3, `CacheEntry`). -/
structure CacheEntry where
  payload : String
  fetchedAt : Nat
deriving DecidableEq, Repr

/-- Outcome of one `get_or_fetch` call: the returned payload, the store
after the call, and how often the underlying fetch function ran (0 or 1). -/
structure CacheResult where
  payload : String
  store : List (String × CacheEntry)
  fetchCount : Nat
deriving DecidableEq, Repr

/-- Modelled from the spec: `CacheStore.get_or_fetch(key, expiry_class,
fetch_fn)` (spec section 4.1), realizing `wetterdienst.util.cache`, which
both `DwdRoadWeatherObservationRequest._all` and
`NwsObservationRequest._all` consult through `download_file` but which is
absent from the repository snapshot.  If a live entry exists (age strictly
below the expiry threshold `expiry` at time `now`) its payload is returned
without fetching; otherwise `fetchFn` runs once and its result is stored
under `key` by atomic replace, modelled by prepending so that lookup sees
the newest entry. -/
def getOrFetch (store : List (String × CacheEntry)) (key : String)
    (expiry now : Nat) (fetchFn : Unit → String) : CacheResult :=
  match store.lookup key with
  | some e =>
    if now - e.fetchedAt < expiry then ⟨e.payload, store, 0⟩
    else ⟨fetchFn (), (key, ⟨fetchFn (), now⟩) :: store, 1⟩
  | none => ⟨fetchFn (), (key, ⟨fetchFn (), now⟩) :: store, 1⟩

lemma lookup_cons_self {β : Type} (k : String) (b : β)
    (es : List (String × β)) : List.lookup k ((k, b) :: es) = some b := by
  simp [List.lookup]

lemma getOrFetch_fetchCount_le_one (store : List (String × CacheEntry))
    (key : String) (expiry now : Nat) (fetchFn : Unit → String) :
    (getOrFetch store key expiry now fetchFn).fetchCount ≤ 1 := by
  unfold getOrFetch
  cases store.lookup key with
  | none => exact le_refl 1
  | some e =>
    by_cases h : now - e.fetchedAt < expiry
    · simp [h]
    · simp [h]

/-- C3: two consecutive `get_or_fetch` calls with the same key, the second
while the window opened by the first is still live (`now2 - now1 <
expiry`), invoke the underlying fetch function at most once in total: a
second call that finds a live entry returns the stored bytes without
fetching again. -/
theorem getOrFetch_atMostOneFetch (store : List (String × CacheEntry))
    (key : String) (expiry now1 now2 : Nat) (fetchFn : Unit → String)
    (hlive : now2 - now1 < expiry) :
    (getOrFetch store key expiry now1 fetchFn).fetchCount +
      (getOrFetch (getOrFetch store key expiry now1 fetchFn).store key expiry
        now2 fetchFn).fetchCount ≤ 1 := by
  have refill : ∀ p : String,
      getOrFetch ((key, ⟨p, now1⟩) :: store) key expiry now2 fetchFn =
        ⟨p, (key, ⟨p, now1⟩) :: store, 0⟩ := by
    intro p
    unfold getOrFetch
    rw [lookup_cons_self]
    simp [hlive]
  cases hl : store.lookup key with
  | none =>
    have hfirst : getOrFetch store key expiry now1 fetchFn =
        ⟨fetchFn (), (key, ⟨fetchFn (), now1⟩) :: store, 1⟩ := by
      unfold getOrFetch
      rw [hl]
    rw [hfirst]
    rw [refill (fetchFn ())]
    simp
  | some e =>
    by_cases h : now1 - e.fetchedAt < expiry
    · have hfirst : getOrFetch store key expiry now1 fetchFn =
          ⟨e.payload, store, 0⟩ := by
        unfold getOrFetch
        rw [hl]
        simp [h]
      rw [hfirst]
      have h2 := getOrFetch_fetchCount_le_one store key expiry now2 fetchFn
      simpa using h2
    · have hfirst : getOrFetch store key expiry now1 fetchFn =
          ⟨fetchFn (), (key, ⟨fetchFn (), now1⟩) :: store, 1⟩ := by
        unfold getOrFetch
        rw [hl]
        simp [h]
      rw [hfirst]
      rw [refill (fetchFn ())]
      simp

theorem getOrFetch_atMostOneFetch_witness :
    (getOrFetch [] "k" 5 10 (fun _ => "bytes")).fetchCount +
      (getOrFetch (getOrFetch [] "k" 5 10 (fun _ => "bytes")).store "k" 5 12
        (fun _ => "bytes")).fetchCount ≤ 1 :=
  getOrFetch_atMostOneFetch [] "k" 5 10 12 (fun _ => "bytes") (by norm_num)

/-- The period enumeration defined in the road-weather api module (source
lines 74-76); its sole member is `HISTORICAL`.  From its definition on it
shadows the enumeration of the same name imported from
`road_weather.metadata.period` at the top of the module, so the values
class below sees this one. -/
inductive DwdRoadWeatherObservationPeriod
  | HISTORICAL
deriving DecidableEq, Repr

/-- Guard of the period dispatch in `_collect_data_by_station_group`
(source line 178): the source compares `self.period` with
`DwdRoadWeatherObservationPeriod.LATEST`.  `LATEST` is not a member of the
enumeration above, so no representable period value passes the equality;
the guard is false on every member. -/
def dwdRoadWeatherPeriodIsLatest : DwdRoadWeatherObservationPeriod → Bool
  | .HISTORICAL => false

/-- Embedding of
`DwdRoadWeatherObservationValues._collect_data_by_station_group` (source
lines 161-183).  The file index
(`create_file_index_for_dwd_road_weather_station`), the parallel
downloader and the parser are engine components absent from the snapshot
and enter as the parameters `fileIndexOf`, `downloadParallel` and
`parseData`; parsed rows are indexed by `shortStationName`, modelled as
their first component.  The source raises `NotImplementedError` unless the
period equals the non-member `LATEST`; in the (unreachable) latest branch
it downloads the last indexed file (`remote_files.iloc[-1, 0]`, modelled
with a default for the empty index on which pandas would raise) and parses
it. -/
def collectDataByStationGroup {α : Type} (fileIndexOf : String → List String)
    (downloadParallel : List String → List (String × String))
    (parseData : List (String × String) → List (String × α))
    (period : DwdRoadWeatherObservationPeriod) (grp : String) :
    Except RwError (List (String × α)) :=
  let remoteFiles := fileIndexOf grp
  if dwdRoadWeatherPeriodIsLatest period then
    .ok (parseData (downloadParallel [remoteFiles.getLastD ""]))
  else .error .notImplementedOnlyLatest

/-- C4: for every representable (resolution, period) combination — the
resolution is fixed to ten-minute and every representable period is
unsupported — the file-collection dispatch fails with the error embedding
the spec error `UnsupportedCombination` (realized in the source as
`NotImplementedError`), and never returns a sequence of file rows, in
particular never an empty one. -/
theorem collectDataByStationGroup_unsupported {α : Type}
    (fileIndexOf : String → List String)
    (downloadParallel : List String → List (String × String))
    (parseData : List (String × String) → List (String × α))
    (period : DwdRoadWeatherObservationPeriod) (grp : String) :
    collectDataByStationGroup fileIndexOf downloadParallel parseData period
        grp = .error .notImplementedOnlyLatest ∧
    (collectDataByStationGroup fileIndexOf downloadParallel parseData period
        grp).isOk = false := by
  cases period
  exact ⟨rfl, rfl⟩

/-- C9: no representable period reaches the download-and-parse path —
every member of the period enumeration (whose sole member is `HISTORICAL`)
fails the comparison with the non-member `LATEST`, so
`_collect_data_by_station_group` raises on all of them, whatever the other
components do. -/
theorem period_dispatch_always_raises {α : Type}
    (fileIndexOf : String → List String)
    (downloadParallel : List String → List (String × String))
    (parseData : List (String × String) → List (String × α))
    (period : DwdRoadWeatherObservationPeriod) (grp : String) :
    dwdRoadWeatherPeriodIsLatest period = false ∧
    collectDataByStationGroup fileIndexOf downloadParallel parseData period
        grp = .error .notImplementedOnlyLatest := by
  cases period
  exact ⟨rfl, rfl⟩

/-- Embedding of `NwsObservationRequest._all` (source lines 63-72): from
the decoded station-listing payload (its `features` array, each feature an
opaque record here) a data frame is built and printed, but the function
body has no return statement, so Python returns `None`: the station-listing
operation produces no station table. -/
def nwsObservationRequestAll (features : List String) :
    Option (List String) :=
  let _df := features
  none

/-- C10: for every successfully fetched and decoded payload,
`NwsObservationRequest._all` returns no station table — the result is
`None` for every input. -/
theorem nwsObservationRequestAll_returns_none (features : List String) :
    nwsObservationRequestAll features = none := rfl

/-- State of a `DwdRoadWeatherObservationValues` object: the selected
period and the mutable station meta index `self.metaindex`. -/
structure DwdRoadWeatherObservationValues where
  period : DwdRoadWeatherObservationPeriod
  metaindex : List MetaStation
deriving DecidableEq, Repr

/-- Embedding of `DwdRoadWeatherObservationValues.__init__` (source lines
86-96): the meta index comes from `create_meta_index_for_road_weather`
(whose body is missing from the snapshot of `metaindex.py`, so the created
index is a parameter) and rows with station group `"XX"` are removed. -/
def dwdRoadWeatherValuesInit (createdMetaIndex : List MetaStation)
    (period : DwdRoadWeatherObservationPeriod) :
    DwdRoadWeatherObservationValues :=
  ⟨period, createdMetaIndex.filter (fun s => s.stationGroup != "XX")⟩

/-- Order-preserving deduplication keeping first occurrences: the
behaviour of the pandas `Series.unique` and `drop_duplicates` calls that
compute the required station groups. -/
def firstDedup (l : List String) : List String :=
  l.foldl (fun acc x => if acc.contains x then acc else acc ++ [x]) []

/-- Common tail of the two data-collection operations (source lines
121-137 and 143-159): compute the required station groups of the narrowed
meta index `mi` (pandas `unique` and `drop_duplicates` keep first
occurrences), collect data for each group, concatenate the frames (pandas
raises on an empty list of frames), and keep rows whose
`shortStationName` index level is among the station identifiers of `mi`. -/
def collectResult {α : Type} (fileIndexOf : String → List String)
    (downloadParallel : List String → List (String × String))
    (parseData : List (String × String) → List (String × α))
    (period : DwdRoadWeatherObservationPeriod) (mi : List MetaStation) :
    Except RwError (List (String × α)) :=
  let groups := firstDedup (mi.map (fun s => s.stationGroup))
  match groups.mapM (fun g => collectDataByStationGroup fileIndexOf
      downloadParallel parseData period g) with
  | .error e => .error e
  | .ok datasets =>
    if datasets.isEmpty then .error .valueErrorNoObjects
    else .ok ((datasets.flatten).filter (fun r =>
      (mi.map (fun s => s.stationId)).contains r.1))

/-- Embedding of `DwdRoadWeatherObservationValues._collect_data_by_rank`
(source lines 102-137): derive the `rank` nearest stations (through the
spec-modelled `nearest`, `derive_nearest_neighbours` being absent from the
snapshot), assign the narrowed selection to `self.metaindex`, then collect
the data of its station groups.  The state is returned alongside the
outcome because the assignment to `self.metaindex` persists even when a
later step raises; the assignment happens after the neighbour derivation,
so a rank failure leaves the state untouched. -/
def collectDataByRank {α : Type} (d : ℚ → ℚ → MetaStation → ℚ)
    (fileIndexOf : String → List String)
    (downloadParallel : List String → List (String × String))
    (parseData : List (String × String) → List (String × α))
    (self : DwdRoadWeatherObservationValues) (lat lon : ℚ) (rank : Nat) :
    Except RwError (List (String × α)) × DwdRoadWeatherObservationValues :=
  match nearest d self.metaindex lat lon rank with
  | .error e => (.error e, self)
  | .ok out =>
    (collectResult fileIndexOf downloadParallel parseData self.period
        (out.map Prod.fst),
      ⟨self.period, out.map Prod.fst⟩)

/-- Embedding of
`DwdRoadWeatherObservationValues._collect_data_by_station_name` (source
lines 139-159): assign to `self.metaindex` the rows whose name equals
`stationName`, then collect the data of its station groups.  The
narrowing assignment comes first, so it persists in every outcome, also
when collection raises. -/
def collectDataByStationName {α : Type}
    (fileIndexOf : String → List String)
    (downloadParallel : List String → List (String × String))
    (parseData : List (String × String) → List (String × α))
    (self : DwdRoadWeatherObservationValues) (stationName : String) :
    Except RwError (List (String × α)) × DwdRoadWeatherObservationValues :=
  let mi := self.metaindex.filter (fun s => s.name == stationName)
  (collectResult fileIndexOf downloadParallel parseData self.period mi,
    ⟨self.period, mi⟩)

/-- Example file index map for concrete evaluations. -/
def exFileIndexOf (grp : String) : List String := [grp ++ "-latest"]

/-- Example downloader for concrete evaluations. -/
def exDownloadParallel (files : List String) : List (String × String) :=
  files.map (fun f => (f, "payload"))

/-- Example parser for concrete evaluations; rows are indexed by
`shortStationName` only. -/
def exParseData (files : List (String × String)) : List (String × Unit) :=
  files.map (fun f => (f.1, ()))

/-- Example values state for concrete evaluations: the full meta index
holds the two example stations. -/
def exSelf : DwdRoadWeatherObservationValues :=
  ⟨.HISTORICAL, [exStationA, exStationB]⟩

/-- C5 counterexample: collecting data by station name narrows
`self.metaindex` in place — after the call the index holds only station A
although the session's full index held stations A and B, so a repeated
query against the same request does not observe the full station index. -/
theorem collect_narrows_metaindex_cex :
    (collectDataByStationName exFileIndexOf exDownloadParallel exParseData
        exSelf "Adlershof").2.metaindex = [exStationA] ∧
    exSelf.metaindex = [exStationA, exStationB] ∧
    ([exStationA] ≠ [exStationA, exStationB]) := by
  refine ⟨?_, rfl, by simp⟩
  show (exSelf.metaindex.filter (fun s => s.name == "Adlershof")) =
    [exStationA]
  simp [exSelf, exStationA, exStationB]

/-- C5 amended: the data-collection operations narrow `self.metaindex` in
place rather than leaving it read-only: collect-by-name replaces it with
the rows whose name matches (in every outcome), and collect-by-rank, when
the neighbour derivation succeeds, replaces it with exactly the derived
nearest stations; later queries observe the narrowed, not the full,
index. -/
theorem collect_metaindex_narrowing {α : Type} (d : ℚ → ℚ → MetaStation → ℚ)
    (fileIndexOf : String → List String)
    (downloadParallel : List String → List (String × String))
    (parseData : List (String × String) → List (String × α))
    (self : DwdRoadWeatherObservationValues) (lat lon : ℚ) (rank : Nat)
    (stationName : String) (out : List (MetaStation × ℚ))
    (hout : nearest d self.metaindex lat lon rank = .ok out) :
    (collectDataByRank d fileIndexOf downloadParallel parseData self lat lon
        rank).2.metaindex = out.map Prod.fst ∧
    (collectDataByStationName fileIndexOf downloadParallel parseData self
        stationName).2.metaindex =
      self.metaindex.filter (fun s => s.name == stationName) := by
  constructor
  · unfold collectDataByRank
    rw [hout]
  · rfl

theorem collect_metaindex_narrowing_witness :
    (collectDataByRank exDist exFileIndexOf exDownloadParallel exParseData
        exSelf 52 13 1).2.metaindex =
      (nearestOut exDist [exStationA, exStationB] 52 13 1).map Prod.fst ∧
    (collectDataByStationName exFileIndexOf exDownloadParallel exParseData
        exSelf "Adlershof").2.metaindex =
      exSelf.metaindex.filter (fun s => s.name == "Adlershof") :=
  collect_metaindex_narrowing exDist exFileIndexOf exDownloadParallel
    exParseData exSelf 52 13 1 "Adlershof"
    (nearestOut exDist [exStationA, exStationB] 52 13 1)
    (by unfold nearest
        rw [if_neg (by simp [exSelf])]
        rfl)

/-- A row of the DWD road-weather station listing spreadsheet after the
column rename of `DwdRoadWeatherObservationRequest._all` (source lines
262-275).  `hasFile` is the renamed `außer Betrieb (gemeldet)` (reported
out of operation) column, `none` when the cell is empty (`isna`).  The
comparison of the station-group column with the integer 0 in the filter of
line 277 fixes that column as numeric in this model.  Coordinates are
`none` when missing; the locale comma-to-dot replacement and float cast of
lines 279-284 map a missing cell to a missing cell and are otherwise
value-preserving, so they are abstracted as the identity on the option
structure.  Renamed columns that play no part in filtering (state, road
sector and the like) are omitted. -/
structure RoadStationRow where
  stationId : String
  name : String
  roadName : String
  hasFile : Option String
  stationGroup : Nat
  latitude : Option ℚ
  longitude : Option ℚ
  height : Option ℚ
deriving DecidableEq, Repr

/-- Embedding of the row filter of `DwdRoadWeatherObservationRequest._all`
(source line 277): `df.loc[df[HAS_FILE].isna() & df[STATION_GROUP] != 0, :]`.
In Python the operator `&` binds tighter than `!=`, so pandas evaluates
`(isna(hasFile) & stationGroup) != 0`: the bitwise conjunction of the 0/1
missingness indicator with the numeric station group, kept when nonzero.
No condition on the coordinate columns is applied anywhere in the
function. -/
def dwdRoadWeatherRequestAll (rows : List RoadStationRow) :
    List RoadStationRow :=
  rows.filter (fun r =>
    ((if r.hasFile.isNone then 1 else 0) &&& r.stationGroup) != 0)

/-- Example spreadsheet row for concrete evaluations: in operation
(`hasFile` empty), station group 1, both coordinates missing. -/
def exMissingCoordRow : RoadStationRow :=
  ⟨"1001", "Adlershof", "A113", none, 1, none, none, none⟩

/-- C6 counterexample: a row with missing latitude and longitude survives
the station-listing resolution unchanged — rows with missing coordinates
are NOT dropped by `_all`. -/
theorem requestAll_keeps_missing_coordinates_cex :
    dwdRoadWeatherRequestAll [exMissingCoordRow] = [exMissingCoordRow] ∧
    exMissingCoordRow.latitude = none ∧
    exMissingCoordRow.longitude = none := by
  refine ⟨?_, rfl, rfl⟩
  simp [dwdRoadWeatherRequestAll, exMissingCoordRow]

lemma one_and_ne_zero (g : Nat) : ((1 &&& g) != 0) = (g % 2 == 1) := by
  rw [Nat.and_comm, Nat.and_one_is_mod]
  rcases Nat.mod_two_eq_zero_or_one g with h | h <;> simp [h]

/-- C6 amended: `_all` keeps exactly the rows whose out-of-operation cell
is empty and whose numeric station group is odd — the bitwise conjunction
produced by the operator precedence of the source filter; rows with
missing coordinates are retained, and no historical-only switch exists
anywhere in the function. -/
theorem requestAll_filter_characterization (rows : List RoadStationRow) :
    dwdRoadWeatherRequestAll rows =
      rows.filter (fun r => r.hasFile.isNone && (r.stationGroup % 2 == 1)) := by
  unfold dwdRoadWeatherRequestAll
  apply List.filter_congr
  intro r _
  cases h : r.hasFile.isNone
  · simp [h]
  · simp only [h, if_true, Bool.true_and]
    exact one_and_ne_zero r.stationGroup

/-- Canonical long-format record (spec section 3, `TidyRow`): parameter
name, timestamp and value, `none` being the explicit missing marker. -/
structure TidyRow where
  parameter : String
  date : Nat
  value : Option ℚ
deriving DecidableEq, Repr

/-- Provider-native wide table (spec section 3, `RawTable`): per column a
provider-native name and the cells, each a timestamp with a value. -/
abbrev RawTable := List (String × List (Nat × Option ℚ))

/-- First-match application of a parameter-name mapping; names not present
as keys pass through unchanged (raw provider codes are preserved). -/
def applyMap : List (String × String) → String → String
  | [], c => c
  | kv :: rest, c => if c == kv.1 then kv.2 else applyMap rest c

/-- One cell of a wide column turned into a long row: parameter-name
humanization through `pmap` only when `humanize` is set, and the declared
missing sentinel translated to the explicit missing marker. -/
def tidyCell (sentinel : ℚ) (humanize : Bool) (pmap : List (String × String))
    (name : String) (cell : Nat × Option ℚ) : TidyRow :=
  ⟨if humanize then applyMap pmap name else name, cell.1,
   if cell.2 = some sentinel then none else cell.2⟩

/-- Modelled from the spec: `TidyNormalizer.tidy(raw_tables, parameter_map,
humanize)` (spec section 4.8) — the tidy pipeline of the engine core and
the road-weather parser are absent from the repository snapshot.  Each wide
column becomes one long row per timestamp, in column order and per column
in timestamp order. -/
def tidy (sentinel : ℚ) (humanize : Bool) (pmap : List (String × String))
    (raw : RawTable) : List TidyRow :=
  raw.flatMap (fun col => col.2.map (tidyCell sentinel humanize pmap col.1))

/-- Interpretation of a tidy output as its own wide form (the round-trip
reading of spec section 8): every long row is a one-cell column named by
its parameter. -/
def tidyAsWide (rows : List TidyRow) : RawTable :=
  rows.map (fun r => (r.parameter, [(r.date, r.value)]))

/-- The humanized parameter mapping derived from the `MINUTE_10` parameter
enumeration of the road-weather api module (source lines 49-67): provider
code to lower-cased enumeration member name. -/
def dwdRoadWeatherHumanizedMapping : List (String × String) :=
  [("roadSurfaceTemperature", "road_surface_temperature"),
   ("airTemperature", "temperature_air"),
   ("roadSurfaceCondition", "road_surface_condition"),
   ("waterFilmThickness", "water_film_thickness"),
   ("maximumWindGustSpeed", "wind_extreme"),
   ("maximumWindGustDirection", "wind_extreme_direction"),
   ("windDirection", "wind_direction"),
   ("windSpeed", "wind"),
   ("dewpointTemperature", "dew_point"),
   ("relativeHumidity", "relative_humidity"),
   ("soil_temperature", "temperature_soil"),
   ("visibility", "visibility"),
   ("precipitationType", "precipitation_type"),
   ("totalPrecipitationOrTotalWaterEquivalent", "total_precipitation"),
   ("intensityOfPrecipitation", "intensity_of_precipitation"),
   ("intensityOfPhenomena", "intensity_of_phenomena"),
   ("horizontalVisibility", "horizontal_visibility"),
   ("shortStationName", "short_station_name")]

/-- Embedding of
`DwdRoadWeatherObservationValues._create_humanized_parameters_mapping`
(source lines 194-197): despite the annotation `Dict[str, str]` and a
docstring promising the parameter mapping, the body is a bare `return`, so
the function yields `None` — no mapping at all. -/
def createHumanizedParametersMapping : Option (List (String × String)) :=
  none

lemma applyMap_result (m : List (String × String)) (c : String) :
    applyMap m c = c ∨ applyMap m c ∈ m.map Prod.snd := by
  induction m with
  | nil => exact Or.inl rfl
  | cons kv rest ih =>
    by_cases h : (c == kv.1) = true
    · right
      simp [applyMap, h]
    · have h2 : (c == kv.1) = false := by
        cases hb : c == kv.1
        · rfl
        · exact absurd hb h
      rcases ih with h3 | h3
      · left
        simp [applyMap, h2, h3]
      · right
        simp only [applyMap, h2, Bool.false_eq_true, if_false,
          List.map_cons, List.mem_cons]
        exact Or.inr h3

lemma applyMap_stable (m : List (String × String))
    (hm : ∀ p ∈ m, applyMap m p.2 = p.2) (c : String) :
    applyMap m (applyMap m c) = applyMap m c := by
  rcases applyMap_result m c with h | h
  · rw [h]
    exact h
  · rcases List.mem_map.mp h with ⟨p, hp, heq⟩
    rw [← heq]
    exact hm p hp

lemma tidy_tidyAsWide (s : ℚ) (h : Bool) (m : List (String × String)) :
    ∀ rows : List TidyRow, tidy s h m (tidyAsWide rows) =
      rows.map (fun r =>
        (⟨if h then applyMap m r.parameter else r.parameter, r.date,
          if r.value = some s then none else r.value⟩ : TidyRow)) := by
  intro rows
  induction rows with
  | nil => rfl
  | cons r rs ih =>
    simp only [tidyAsWide, List.map_cons, tidy, List.flatMap_cons] at ih ⊢
    rw [ih]
    rfl

lemma tidy_row_fixed (s : ℚ) (h : Bool) (m : List (String × String))
    (hm : ∀ p ∈ m, applyMap m p.2 = p.2) (raw : RawTable) :
    ∀ r ∈ tidy s h m raw,
      (if h then applyMap m r.parameter else r.parameter) = r.parameter ∧
      (if r.value = some s then none else r.value) = r.value := by
  intro r hr
  unfold tidy at hr
  rcases List.mem_flatMap.mp hr with ⟨col, _, hmem⟩
  rcases List.mem_map.mp hmem with ⟨cell, _, rfl⟩
  constructor
  · cases h
    · simp
    · simp only [if_true, tidyCell]
      exact applyMap_stable m hm col.1
  · simp only [tidyCell]
    by_cases hc : cell.2 = some s
    · simp [hc]
    · simp [hc]

/-- C8: normalization is idempotent — re-tidying a tidy output interpreted
as its own wide form reproduces it unchanged, for every raw table, every
humanize flag and every sentinel, provided the parameter map is stable on
its own humanized names (as the road-weather mapping is; the witness
checks that concrete map). -/
theorem tidy_idempotent (sentinel : ℚ) (humanize : Bool)
    (pmap : List (String × String))
    (hm : ∀ p ∈ pmap, applyMap pmap p.2 = p.2) (raw : RawTable) :
    tidy sentinel humanize pmap
        (tidyAsWide (tidy sentinel humanize pmap raw)) =
      tidy sentinel humanize pmap raw := by
  rw [tidy_tidyAsWide]
  have hfix : ∀ r ∈ tidy sentinel humanize pmap raw,
      (⟨if humanize then applyMap pmap r.parameter else r.parameter, r.date,
        if r.value = some sentinel then none else r.value⟩ : TidyRow) = r := by
    intro r hr
    obtain ⟨h1, h2⟩ := tidy_row_fixed sentinel humanize pmap hm raw r hr
    obtain ⟨p, d, v⟩ := r
    rw [h1, h2]
  rw [List.map_congr_left hfix]
  exact List.map_id (tidy sentinel humanize pmap raw)

/-- Example raw table for concrete evaluations of the tidy pipeline. -/
def exRawTable : RawTable :=
  [("roadSurfaceTemperature", [(1, some (-999)), (2, some (16/5))])]

theorem tidy_idempotent_witness :
    tidy (-999) true dwdRoadWeatherHumanizedMapping
        (tidyAsWide (tidy (-999) true dwdRoadWeatherHumanizedMapping
          exRawTable)) =
      tidy (-999) true dwdRoadWeatherHumanizedMapping exRawTable :=
  tidy_idempotent (-999) true dwdRoadWeatherHumanizedMapping
    (by decide) exRawTable

/-- C7: on the raw table of the spec example — column
`roadSurfaceTemperature`, timestamps 1 and 2, values −999 and 3.2 (16/5),
with −999 the declared missing sentinel — the spec-modelled tidy under
humanization with the enumeration-derived mapping yields exactly the two
claimed rows: an explicit missing value at the first timestamp and the
literal 3.2 at the second, both tagged `road_surface_temperature`.  The
source, however, cannot produce those humanized names: its mapping
function returns `None` instead of the annotated `Dict[str, str]`. -/
theorem humanized_tidy_example_vs_code :
    tidy (-999) true dwdRoadWeatherHumanizedMapping exRawTable =
      [⟨"road_surface_temperature", 1, none⟩,
       ⟨"road_surface_temperature", 2, some (16/5)⟩] ∧
    createHumanizedParametersMapping = none := by
  refine ⟨?_, rfl⟩
  norm_num [tidy, tidyCell, applyMap, dwdRoadWeatherHumanizedMapping,
    exRawTable, List.flatMap_cons, List.flatMap_nil]
